import Mathlib

/-!
Verification development for the test-backend core: the generic
pagination/search repository (`CrudRepository`), the garment service's input
validation, and the authentication token lifecycle (login, refresh rotation,
logout revocation).

The definitions are a shallow embedding of the TypeScript sources:

* `src/repositories/crud.repository.ts` — `CrudRepository` (pagination, search,
  `updateById` with `runValidators`);
* `src/services/garments.service.ts` — `GarmentsService`;
* `src/model/garments.model.ts` — the garment schema and its validators;
* `src/model/auth.model.ts` — the user schema, bcrypt hashing hook;
* `src/repositories/auth.repository.ts` — `AuthRepository`;
* `src/services/auth.service.ts` — `AuthService`;
* `src/helpers/jwt.ts` — token signing/verification.

The document store (MongoDB) is modelled as an in-memory list with atomic
single-document operations, which is the consistency contract the code relies
on.  JavaScript numbers that the code only ever uses as integers are modelled
as `Nat`/`Int`.  Signed JWTs are modelled as records carrying the payload id,
the issue instant (`iat`), the expiry instant and the signing key; two tokens
are equal exactly when all of these agree, mirroring equality of the encoded
JWT strings.
-/

namespace TestBackend

/-- Uniform response envelope `{success, message, statusCode, data}` produced
by the `response-messages` helpers that every service method returns. -/
structure Envelope (α : Type) where
  success : Bool
  message : String
  statusCode : Nat
  data : Option α
deriving DecidableEq

namespace ResponseMessage

/-- Embeds `ResponseMessage.ok(message, data)` — 200; `data` may be `null`. -/
def ok (msg : String) (d : Option α) : Envelope α := ⟨true, msg, 200, d⟩

/-- Embeds `ResponseMessage.created(message, data)` — 201. -/
def created (msg : String) (d : Option α) : Envelope α := ⟨true, msg, 201, d⟩

/-- Embeds `ResponseMessage.badRequest(message)` — 400, no data. -/
def badRequest (msg : String) : Envelope α := ⟨false, msg, 400, none⟩

/-- Embeds `ResponseMessage.unauthorized(message)` — 401, no data. -/
def unauthorized (msg : String) : Envelope α := ⟨false, msg, 401, none⟩

/-- Embeds `ResponseMessage.forbidden(message)` — 403, no data. -/
def forbidden (msg : String) : Envelope α := ⟨false, msg, 403, none⟩

/-- Embeds `ResponseMessage.notFound(message)` — 404, no data. -/
def notFound (msg : String) : Envelope α := ⟨false, msg, 404, none⟩

/-- Embeds `ResponseMessage.conflict(message)` — 409, no data. -/
def conflict (msg : String) : Envelope α := ⟨false, msg, 409, none⟩

/-- Embeds `ResponseMessage.internalServerError(message)` — 500, no data. -/
def internalServerError (msg : String) : Envelope α := ⟨false, msg, 500, none⟩

end ResponseMessage

/-- The `PaginationResult<T>` record built by
`CrudRepository.findWithPagination`. -/
structure PaginationResult (α : Type) where
  docs : List α
  totalDocs : Nat
  totalPages : Nat
  currentPage : Nat
  hasNextPage : Bool
  hasPrevPage : Bool
  nextPage : Option Nat
  prevPage : Option Nat
deriving DecidableEq

/-- JavaScript `String.prototype.toLowerCase()` for the strings the services
handle. -/
def toLowerStr (s : String) : String := ⟨s.data.map Char.toLower⟩

/-- JavaScript `String.prototype.trim()` (also the Mongoose `trim: true`
setter): strip leading and trailing whitespace. -/
def trimStr (s : String) : String :=
  ⟨((s.data.dropWhile Char.isWhitespace).reverse.dropWhile
      Char.isWhitespace).reverse⟩

namespace CrudRepository

/-- Embeds `CrudRepository.findWithPagination(filter, page, limit)`: `skip =
(page-1)*limit`, a `find().skip().limit()` page slice together with a
`countDocuments` total, then `totalPages = Math.ceil(totalDocs/limit)` and the
derived flags.  The collection is the list `coll`, the Mongo filter is the
predicate `pred`.  `page` and `limit` are used as the non-negative integers
the service layer guarantees (the repository trusts its inputs per its own
contract; it never clamps). -/
def findWithPagination (coll : List α) (pred : α → Bool) (page limit : Nat) :
    PaginationResult α :=
  let matched := coll.filter pred
  let skip := (page - 1) * limit
  let docs := (matched.drop skip).take limit
  let totalDocs := matched.length
  let totalPages := (totalDocs + limit - 1) / limit
  let hasNextPage := decide (page < totalPages)
  let hasPrevPage := decide (1 < page)
  { docs := docs
    totalDocs := totalDocs
    totalPages := totalPages
    currentPage := page
    hasNextPage := hasNextPage
    hasPrevPage := hasPrevPage
    nextPage := if hasNextPage then some (page + 1) else none
    prevPage := if hasPrevPage then some (page - 1) else none }

/-- Case-insensitive substring match: the semantics of the
`{$regex: value, $options: "i"}` filter built by `searchWithPagination` for a
search value free of regex metacharacters (the source passes the caller's
value through unescaped; the services only ever search plain names). -/
def matchesCI (field value : String) : Bool :=
  decide ((toLowerStr value).data <:+: (toLowerStr field).data)

end CrudRepository

/-- A garment document as validated and stored by `ProductSchema`
(`src/model/garments.model.ts`).  String fields hold their post-setter
(trimmed / lowercased) values; `price` is used by the code as a number with a
`min: 0` validator. -/
structure Garment where
  name : String
  description : String
  price : Int
  size : String
  availability : String
  vendor : String
  categories : String
  color : String
  styleCode : String
  region : String
  collection_name : String
  tags : List String
  images : List String
  createdAt : Nat
  updatedAt : Nat
deriving DecidableEq

/-- The `availability` enum of `ProductSchema`. -/
def availabilityEnum : List String := ["in stock", "out of stock", "pre-order"]

/-- A partial garment update (`Partial<Garment>`): exactly the schema fields a
caller may merge via `updateById`. -/
structure GarmentUpdate where
  name : Option String := none
  description : Option String := none
  price : Option Int := none
  size : Option String := none
  availability : Option String := none
  vendor : Option String := none
  categories : Option String := none
  color : Option String := none
  styleCode : Option String := none
  region : Option String := none
  collection_name : Option String := none
  tags : Option (List String) := none
  images : Option (List String) := none
deriving DecidableEq

/-- Field validators of `ProductSchema` applied by Mongoose to the fields
present in an update when `runValidators: true` is set: `name` 2–200 chars,
`description` ≤ 5000, `price ≥ 0`, `size` ≤ 200 (non-empty via `required`),
`availability` in the enum, `vendor`/`categories` ≤ 120, `color`/`styleCode`
≤ 100, `region` ≤ 100, `collection_name` ≤ 150.  String setters (`trim`,
`lowercase`) run before validation. -/
def validateGarmentUpdate (u : GarmentUpdate) : Bool :=
  (match u.name with
   | none => true
   | some s => 2 ≤ (trimStr s).length && (trimStr s).length ≤ 200) &&
  (match u.description with
   | none => true
   | some s => (trimStr s).length ≤ 5000) &&
  (match u.price with
   | none => true
   | some p => 0 ≤ p) &&
  (match u.size with
   | none => true
   | some s => (trimStr s).length ≤ 200) &&
  (match u.availability with
   | none => true
   | some s => availabilityEnum.contains s) &&
  (match u.vendor with
   | none => true
   | some s => (trimStr s).length ≤ 120) &&
  (match u.categories with
   | none => true
   | some s => (trimStr s).length ≤ 120) &&
  (match u.color with
   | none => true
   | some s => (trimStr s).length ≤ 100) &&
  (match u.styleCode with
   | none => true
   | some s => (trimStr s).length ≤ 100) &&
  (match u.region with
   | none => true
   | some s => (trimStr s).length ≤ 100) &&
  (match u.collection_name with
   | none => true
   | some s => (trimStr s).length ≤ 150)

/-- Merge the fields present in the update into the stored document, applying
the schema string setters (`trim`, and `lowercase` where declared). -/
def applyGarmentUpdate (g : Garment) (u : GarmentUpdate) : Garment :=
  { g with
    name := (u.name.map trimStr).getD g.name
    description := (u.description.map trimStr).getD g.description
    price := u.price.getD g.price
    size := (u.size.map trimStr).getD g.size
    availability := u.availability.getD g.availability
    vendor := (u.vendor.map (fun s => toLowerStr (trimStr s))).getD g.vendor
    categories := (u.categories.map (fun s => toLowerStr (trimStr s))).getD g.categories
    color := (u.color.map trimStr).getD g.color
    styleCode := (u.styleCode.map trimStr).getD g.styleCode
    region := (u.region.map (fun s => toLowerStr (trimStr s))).getD g.region
    collection_name := (u.collection_name.map trimStr).getD g.collection_name
    tags := u.tags.getD g.tags
    images := u.images.getD g.images }

/-- Errors thrown by the document store and surfaced to the services. -/
inductive StoreError where
  | validationError (msg : String)
  | duplicateKey (msg : String)
deriving DecidableEq

/-- The garment collection: documents keyed by their `_id` string. -/
abbrev GarmentStore := List (String × Garment)

/-- Embeds `Types.ObjectId.isValid(id)` for the string form the services receive: a
24-character hex string. -/
def isValidObjectId (s : String) : Bool :=
  s.length == 24 &&
  s.data.all (fun c => c.isDigit || ('a' ≤ c && c ≤ 'f') || ('A' ≤ c && c ≤ 'F'))

namespace CrudRepository

/-- Embeds `CrudRepository.updateById(id, partial)` =
`findByIdAndUpdate(id, data, {new: true, runValidators: true})`: the update is
validated first (an invalid update throws a `ValidationError` and writes
nothing — Mongo updates a single document atomically), a missing id yields
`null`, otherwise the merged document is stored and returned.  Mongoose
`timestamps` refresh `updatedAt` on the write. -/
def updateById (store : GarmentStore) (id : String) (u : GarmentUpdate)
    (now : Nat) : Except StoreError (Option Garment) × GarmentStore :=
  if validateGarmentUpdate u then
    match store.find? (fun e => e.fst == id) with
    | none => (.ok none, store)
    | some (_, g) =>
      let g' := { applyGarmentUpdate g u with updatedAt := now }
      (.ok (some g'),
       store.map (fun e => if e.fst == id then (e.fst, g') else e))
  else
    (.error (.validationError "Garment validation failed"), store)

end CrudRepository

/-- The repository reads a garment service call can issue; recorded so that
"the repository was never invoked" is a provable statement. -/
inductive RepoCall where
  | findWithPagination (page limit : Nat)
  | searchWithPagination (field value : String) (page limit : Nat)
deriving DecidableEq

/-- The seven-field pagination block echoed inside garment list/search
responses. -/
structure PaginationMeta where
  totalDocs : Nat
  totalPages : Nat
  currentPage : Nat
  hasNextPage : Bool
  hasPrevPage : Bool
  nextPage : Option Nat
  prevPage : Option Nat
deriving DecidableEq

/-- Copy the pagination metadata out of a repository result, exactly as the
service spreads it into the response. -/
def PaginationMeta.ofResult (r : PaginationResult α) : PaginationMeta :=
  { totalDocs := r.totalDocs
    totalPages := r.totalPages
    currentPage := r.currentPage
    hasNextPage := r.hasNextPage
    hasPrevPage := r.hasPrevPage
    nextPage := r.nextPage
    prevPage := r.prevPage }

/-- Payload of a successful `getAllGarments` response. -/
structure GarmentsPage where
  garments : List Garment
  pagination : PaginationMeta
deriving DecidableEq

/-- Payload of a successful `searchGarmentsByName` response. -/
structure GarmentsSearchPage where
  garments : List Garment
  searchTerm : String
  pagination : PaginationMeta
deriving DecidableEq

/-- Payload of a successful `updateGarment` response. -/
structure GarmentData where
  garment : Garment
deriving DecidableEq

namespace GarmentsService

/-- Embeds `GarmentsService.getAllGarments(page, limit)`: rejects `page < 1 ||
limit < 1` with `badRequest` before touching the repository, otherwise
paginates the whole collection (empty filter).  `page` and `limit` arrive as
JavaScript numbers, modelled as integers; the returned list records the
repository reads performed. -/
def getAllGarments (store : GarmentStore) (page limit : Int) :
    Envelope GarmentsPage × List RepoCall :=
  if page < 1 || limit < 1 then
    (ResponseMessage.badRequest "Invalid pagination parameters", [])
  else
    let r := CrudRepository.findWithPagination (store.map Prod.snd)
      (fun _ => true) page.toNat limit.toNat
    (ResponseMessage.ok "Garments fetched successfully"
      (some { garments := r.docs, pagination := PaginationMeta.ofResult r }),
     [RepoCall.findWithPagination page.toNat limit.toNat])

/-- Embeds `GarmentsService.searchGarmentsByName(name, page, limit)`: the same
pagination guard, then `searchWithPagination("name", name, page, limit)`,
echoing the search term. -/
def searchGarmentsByName (store : GarmentStore) (name : String)
    (page limit : Int) : Envelope GarmentsSearchPage × List RepoCall :=
  if page < 1 || limit < 1 then
    (ResponseMessage.badRequest "Invalid pagination parameters", [])
  else
    let r := CrudRepository.findWithPagination (store.map Prod.snd)
      (fun g => CrudRepository.matchesCI g.name name) page.toNat limit.toNat
    (ResponseMessage.ok "Search completed successfully"
      (some { garments := r.docs, searchTerm := name,
              pagination := PaginationMeta.ofResult r }),
     [RepoCall.searchWithPagination "name" name page.toNat limit.toNat])

/-- Embeds `GarmentsService.updateGarment(id, garment)`: `badRequest` on a malformed
id, `notFound` when `updateById` returns `null`, `ok` with the updated
document otherwise.  The method has no try/catch, so a `ValidationError`
thrown by the store propagates to the caller — modelled as `Except.error`. -/
def updateGarment (store : GarmentStore) (id : String) (u : GarmentUpdate)
    (now : Nat) : Except StoreError (Envelope GarmentData) × GarmentStore :=
  if !(isValidObjectId id) then
    (.ok (ResponseMessage.badRequest "Invalid garment ID"), store)
  else
    match CrudRepository.updateById store id u now with
    | (.error e, store') => (.error e, store')
    | (.ok none, store') =>
      (.ok (ResponseMessage.notFound "Garment not found"), store')
    | (.ok (some g), store') =>
      (.ok (ResponseMessage.ok "Garment updated successfully"
        (some { garment := g })), store')

end GarmentsService

/-! ## Authentication: tokens, users, repository, service -/

/-- A signed JWT (`src/helpers/jwt.ts`): HMAC over a `{id}` payload with an
issue time and an expiry.  Two encoded JWT strings are equal exactly when
payload, `iat`, `exp` and signing key agree, so the token is modelled as that
record; the signing key stands for the secret that produced the signature and
is never readable from the token by anyone lacking the secret. -/
structure Token where
  id : String
  iat : Nat
  exp : Nat
  key : String
deriving DecidableEq

/-- Embeds `ACCESS_TOKEN_SECRET`. -/
def accessTokenSecret : String := "access_secret_change_me"

/-- Embeds `REFRESH_TOKEN_SECRET`. -/
def refreshTokenSecret : String := "refresh_secret_change_me"

/-- Access-token lifetime (`15m`), in seconds. -/
def accessTokenTtl : Nat := 15 * 60

/-- Refresh-token lifetime (`7d`), in seconds. -/
def refreshTokenTtl : Nat := 7 * 24 * 60 * 60

/-- Embeds `jwt.sign(payload, secret, {expiresIn})` at clock instant `now`. -/
def signToken (key : String) (ttl : Nat) (id : String) (now : Nat) : Token :=
  { id := id, iat := now, exp := now + ttl, key := key }

/-- Embeds `signAccessToken({id})`. -/
def signAccessToken (id : String) (now : Nat) : Token :=
  signToken accessTokenSecret accessTokenTtl id now

/-- Embeds `signRefreshToken({id})`. -/
def signRefreshToken (id : String) (now : Nat) : Token :=
  signToken refreshTokenSecret refreshTokenTtl id now

/-- The two failure modes of `jwt.verify`. -/
inductive TokenError where
  | invalid
  | expired
deriving DecidableEq

/-- Embeds `jwt.verify(token, secret)` at clock instant `now`: signature first, then
expiry (`exp` is exclusive), returning the decoded payload id. -/
def verifyToken (key : String) (t : Token) (now : Nat) :
    Except TokenError String :=
  if t.key ≠ key then .error .invalid
  else if t.exp ≤ now then .error .expired
  else .ok t.id

/-- Embeds `verifyRefreshToken`. -/
def verifyRefreshToken (t : Token) (now : Nat) : Except TokenError String :=
  verifyToken refreshTokenSecret t now

/-- The bcrypt hash (12 rounds) produced by the user schema's pre-save hook.
Modelled as an injective tag of the plaintext; the hash is never equal to the
plaintext (`$2b$12$` prefix). -/
def hashPassword (p : String) : String := "$2b$12$" ++ p

/-- Embeds `comparePassword(candidate)` = `bcrypt.compare(candidate, storedHash)`. -/
def comparePassword (candidate storedHash : String) : Bool :=
  hashPassword candidate == storedHash

/-- A user document per `userSchema` (`src/model/auth.model.ts`).  `password`
holds the bcrypt hash; `refreshToken` is the single stored refresh token
(nullable); timestamps are Mongoose-managed. -/
structure User where
  _id : String
  username : String
  email : String
  password : String
  role : String
  refreshToken : Option Token
  isActive : Bool
  lastLogin : Option Nat
  createdAt : Nat
  updatedAt : Nat
deriving DecidableEq

/-- The user collection. -/
abbrev UserDb := List User

/-- The `role` enum of `userSchema`. -/
def roleEnum : List String := ["admin", "user", "moderator"]

/-- The basic email format check `/^\S+@\S+\.\S+$/` used both by the service
and by the schema's `match` validator: no whitespace anywhere, an `@` with at
least one character before it, a `.` at least two positions after the `@`,
and at least one character after the `.` (backtracking lets the inner parts
contain further `@` or `.`). -/
def emailFormatOk (s : String) : Bool :=
  let cs := s.data
  cs.all (fun c => !c.isWhitespace) &&
  (List.range cs.length).any (fun i =>
    0 < i && cs.getD i ' ' == '@' &&
    (List.range cs.length).any (fun j =>
      i + 2 ≤ j && j + 1 < cs.length && cs.getD j ' ' == '.'))

/-- Login-side email normalisation: `email.toLowerCase().trim()`. -/
def normEmail (e : String) : String := trimStr (toLowerStr e)

/-- The data handed to `authRepository.create` by `userRegister`. -/
structure NewUser where
  username : String
  email : String
  password : String
  role : String
  isActive : Bool
deriving DecidableEq

namespace AuthRepository

/-- Embeds `findByEmailWithPassword(email)`: `findOne({email}).select("+password")`. -/
def findByEmailWithPassword (db : UserDb) (email : String) : Option User :=
  db.find? (fun u => u.email == email)

/-- Embeds `existsByEmail(email)`: `countDocuments({email}) > 0`, on the raw email
string the service passes. -/
def existsByEmail (db : UserDb) (email : String) : Bool :=
  db.any (fun u => u.email == email)

/-- Embeds `storeRefreshToken(userId, refreshToken)`:
`findByIdAndUpdate(userId, {refreshToken, lastLogin: new Date()}, {new: true})`
— a no-op when the id is absent; `timestamps` refresh `updatedAt`. -/
def storeRefreshToken (db : UserDb) (userId : String) (tok : Token)
    (now : Nat) : UserDb :=
  db.map (fun u =>
    if u._id == userId then
      { u with refreshToken := some tok, lastLogin := some now,
               updatedAt := now }
    else u)

/-- Embeds `findByRefreshToken(refreshToken)`:
`findOne({refreshToken}).select("+refreshToken")`. -/
def findByRefreshToken (db : UserDb) (tok : Token) : Option User :=
  db.find? (fun u => u.refreshToken == some tok)

/-- Embeds `clearRefreshToken(userId)`:
`findByIdAndUpdate(userId, {$unset: {refreshToken: 1}}, {new: true})`. -/
def clearRefreshToken (db : UserDb) (userId : String) (now : Nat) : UserDb :=
  db.map (fun u =>
    if u._id == userId then
      { u with refreshToken := none, updatedAt := now }
    else u)

/-- Embeds `create(data)` = `new UserModel(data).save()`: schema validation of the
plaintext data (username 3–30 after trim and required, email format and
unique index on the lowercased trimmed value, password ≥ 6 chars and
required, role in the enum), then the pre-save hook hashes the password and
the document is stored with fresh timestamps and a store-generated id. -/
def create (db : UserDb) (now : Nat) (freshId : String) (d : NewUser) :
    Except StoreError User × UserDb :=
  let un := trimStr d.username
  let em := trimStr (toLowerStr d.email)
  if !(un ≠ "" && 3 ≤ un.length && un.length ≤ 30) then
    (.error (.validationError "User validation failed: username"), db)
  else if !(em ≠ "" && emailFormatOk em) then
    (.error (.validationError "User validation failed: email"), db)
  else if !(d.password ≠ "" && 6 ≤ d.password.length) then
    (.error (.validationError "User validation failed: password"), db)
  else if !(roleEnum.contains d.role) then
    (.error (.validationError "User validation failed: role"), db)
  else if existsByEmail db em then
    (.error (.duplicateKey "E11000 duplicate key error"), db)
  else
    let u : User :=
      { _id := freshId, username := un, email := em,
        password := hashPassword d.password, role := d.role,
        refreshToken := none, isActive := d.isActive, lastLogin := none,
        createdAt := now, updatedAt := now }
    (.ok u, db ++ [u])

end AuthRepository

/-- Registration payload (`RegisterInfo`): `role` is optional. -/
structure RegisterInfo where
  username : String
  email : String
  password : String
  role : Option String := none
deriving DecidableEq

/-- Embeds `(payload.role as ...) || "user"`: the requested role when supplied and
truthy, else the default. -/
def roleOf (r : Option String) : String :=
  match r with
  | none => "user"
  | some "" => "user"
  | some s => s

/-- Data of a successful register response. -/
structure RegisterData where
  message : String
deriving DecidableEq

/-- Public user view returned by a successful login. -/
structure UserView where
  id : String
  username : String
  email : String
  role : String
deriving DecidableEq

/-- Data of a successful login response. -/
structure LoginData where
  accessToken : Token
  refreshToken : Token
  user : UserView
deriving DecidableEq

/-- Data of a successful refresh response. -/
structure RefreshData where
  accessToken : Token
  refreshToken : Token
deriving DecidableEq

namespace AuthService

/-- Embeds `AuthService.userRegister(payload)`: email format check, duplicate email
pre-check (on the raw email), password length check, then `create` with the
trimmed username, lowercased trimmed email and the requested-or-default role;
a store error is caught and surfaces as `internalServerError`.  `now` is the
clock instant and `freshId` the id the store mints for a new document. -/
def userRegister (db : UserDb) (now : Nat) (freshId : String)
    (payload : RegisterInfo) : Envelope RegisterData × UserDb :=
  if !(emailFormatOk payload.email) then
    (ResponseMessage.badRequest "Invalid email format", db)
  else if AuthRepository.existsByEmail db payload.email then
    (ResponseMessage.conflict "User already exists with this email", db)
  else if payload.password.length < 6 then
    (ResponseMessage.badRequest "Password must be at least 6 characters", db)
  else
    match AuthRepository.create db now freshId
      { username := trimStr payload.username,
        email := trimStr (toLowerStr payload.email),
        password := payload.password,
        role := roleOf payload.role,
        isActive := true } with
    | (.error _, db') =>
      (ResponseMessage.internalServerError "Registration failed", db')
    | (.ok _, db') =>
      (ResponseMessage.created "User registered successfully"
        (some { message := "Please login with your credentials" }), db')

/-- Embeds `AuthService.userLogin(payload)`: required-fields check (empty strings are
falsy), lookup by lowercased trimmed email, deactivation check, bcrypt
comparison, then a fresh token pair is signed, the refresh token is stored
server-side (overwriting any prior one) and both tokens are returned with a
public user view. -/
def userLogin (db : UserDb) (now : Nat) (email password : String) :
    Envelope LoginData × UserDb :=
  if email = "" || password = "" then
    (ResponseMessage.badRequest "Email and password are required", db)
  else
    match AuthRepository.findByEmailWithPassword db (normEmail email) with
    | none => (ResponseMessage.unauthorized "Invalid email or password", db)
    | some u =>
      if !u.isActive then
        (ResponseMessage.forbidden "Account is deactivated", db)
      else if !(comparePassword password u.password) then
        (ResponseMessage.unauthorized "Invalid email or password", db)
      else
        let accessToken := signAccessToken u._id now
        let refreshToken := signRefreshToken u._id now
        (ResponseMessage.ok "Login successful"
          (some { accessToken := accessToken, refreshToken := refreshToken,
                  user := { id := u._id, username := u.username,
                            email := u.email, role := u.role } }),
         AuthRepository.storeRefreshToken db u._id refreshToken now)

/-- Embeds `AuthService.refreshAccessToken(oldRefreshToken)`: verify
signature/expiry (failures are caught as `unauthorized`), require a decoded
id, look up the user whose stored refresh token equals the presented one
exactly, cross-check the embedded id against the found user, then rotate:
sign a new pair and overwrite the stored refresh token. -/
def refreshAccessToken (db : UserDb) (now : Nat) (old : Token) :
    Envelope RefreshData × UserDb :=
  match verifyRefreshToken old now with
  | .error _ =>
    (ResponseMessage.unauthorized "Invalid or expired refresh token", db)
  | .ok decodedId =>
    if decodedId = "" then
      (ResponseMessage.unauthorized "Invalid refresh token", db)
    else
      match AuthRepository.findByRefreshToken db old with
      | none =>
        (ResponseMessage.unauthorized "Invalid refresh token or user inactive",
         db)
      | some user =>
        if user._id ≠ decodedId then
          (ResponseMessage.unauthorized "Token mismatch", db)
        else
          let newAccessToken := signAccessToken user._id now
          let newRefreshToken := signRefreshToken user._id now
          (ResponseMessage.ok "Token refreshed successfully"
            (some { accessToken := newAccessToken,
                    refreshToken := newRefreshToken }),
           AuthRepository.storeRefreshToken db user._id newRefreshToken now)

/-- Embeds `AuthService.userLogout(userId)`: clear the stored refresh token
unconditionally and report success with `null` data. -/
def userLogout (db : UserDb) (userId : String) (now : Nat) :
    Envelope Unit × UserDb :=
  (ResponseMessage.ok "Logged out successfully" none,
   AuthRepository.clearRefreshToken db userId now)

end AuthService

/-- Success of a garment-service call whose store exceptions propagate: a
thrown store error is never a success envelope. -/
def garmentResultSuccess (r : Except StoreError (Envelope GarmentData)) :
    Bool :=
  match r with
  | .error _ => false
  | .ok env => env.success

/-- A concrete garment used to instantiate universally quantified theorems. -/
def gExample : Garment :=
  { name := "Linen Shirt", description := "A shirt", price := 499,
    size := "M", availability := "in stock", vendor := "acme",
    categories := "shirts", color := "white", styleCode := "LS-1",
    region := "india", collection_name := "Summer", tags := [], images := [],
    createdAt := 0, updatedAt := 0 }

/-- A concrete 24-hex-character document id. -/
def idExample : String := "0123456789abcdef01234567"

/-! ## Theorems -/

/-- Helper: `totalDocs` never exceeds `totalPages * limit` for the ceiling
page count computed by the repository. -/
theorem totalDocs_le_totalPages_mul (td l : Nat) (hl : 1 ≤ l) :
    td ≤ ((td + l - 1) / l) * l := by
  have h := le_smul_ceilDiv (α := ℕ) (b := td) (a := l) (by omega)
  simpa [Nat.ceilDiv_eq_add_pred_div, smul_eq_mul, Nat.mul_comm] using h

/-- C1: for every filter and all `page ≥ 1`, `limit ≥ 1`,
`findWithPagination` returns at most `limit` documents; `totalPages` is the
ceiling of `totalDocs / limit` (0 when `totalDocs = 0`); `currentPage = page`;
`hasNextPage ⟺ page < totalPages`; `hasPrevPage ⟺ page > 1`; `nextPage` is
`page + 1` exactly when `hasNextPage` and `null` otherwise, and symmetrically
`prevPage` is `page - 1` exactly when `hasPrevPage`. -/
theorem findWithPagination_spec {α : Type} (coll : List α) (pred : α → Bool)
    (page limit : Nat) (hp : 1 ≤ page) (hl : 1 ≤ limit) :
    (CrudRepository.findWithPagination coll pred page limit).docs.length
        ≤ limit ∧
    (CrudRepository.findWithPagination coll pred page limit).totalPages
        = (CrudRepository.findWithPagination coll pred page limit).totalDocs
            ⌈/⌉ limit ∧
    ((CrudRepository.findWithPagination coll pred page limit).totalDocs = 0 →
      (CrudRepository.findWithPagination coll pred page limit).totalPages
        = 0) ∧
    (CrudRepository.findWithPagination coll pred page limit).currentPage
        = page ∧
    ((CrudRepository.findWithPagination coll pred page limit).hasNextPage
        = true ↔
      page <
        (CrudRepository.findWithPagination coll pred page limit).totalPages) ∧
    ((CrudRepository.findWithPagination coll pred page limit).hasPrevPage
        = true ↔ 1 < page) ∧
    (CrudRepository.findWithPagination coll pred page limit).nextPage
        = (if page <
              (CrudRepository.findWithPagination coll pred page limit).totalPages
           then some (page + 1) else none) ∧
    (CrudRepository.findWithPagination coll pred page limit).prevPage
        = (if 1 < page then some (page - 1) else none) := by
  refine ⟨?_, ?_, ?_, ?_, ?_, ?_, ?_, ?_⟩ <;>
    simp only [CrudRepository.findWithPagination, Nat.ceilDiv_eq_add_pred_div]
  · exact List.length_take_le _ _
  · intro h
    rw [h]
    exact Nat.div_eq_of_lt (by omega)
  · simp
  · simp
  · simp
  · simp

/-- C1 witness: the theorem applied to a three-element collection at
`page = 2`, `limit = 2`. -/
theorem findWithPagination_spec_witness :
    (CrudRepository.findWithPagination [10, 20, 30] (fun _ => true) 2 2).docs.length
        ≤ 2 ∧
    ((CrudRepository.findWithPagination [10, 20, 30] (fun _ => true) 2 2).hasNextPage
        = true ↔
      2 < (CrudRepository.findWithPagination [10, 20, 30] (fun _ => true) 2 2).totalPages) :=
  ⟨(findWithPagination_spec [10, 20, 30] (fun _ => true) 2 2 (by decide)
      (by decide)).1,
   (findWithPagination_spec [10, 20, 30] (fun _ => true) 2 2 (by decide)
      (by decide)).2.2.2.2.1⟩

/-- C4: for every `page < 1` or `limit < 1`, `getAllGarments` and
`searchGarmentsByName` return the `badRequest` envelope and perform no
repository read at all. -/
theorem garment_pagination_guard (store : GarmentStore) (name : String)
    (page limit : Int) (h : page < 1 ∨ limit < 1) :
    GarmentsService.getAllGarments store page limit =
      (ResponseMessage.badRequest "Invalid pagination parameters", []) ∧
    GarmentsService.searchGarmentsByName store name page limit =
      (ResponseMessage.badRequest "Invalid pagination parameters", []) := by
  constructor <;>
    · simp only [GarmentsService.getAllGarments,
        GarmentsService.searchGarmentsByName]
      rcases h with h | h <;> simp [h]

/-- C4 witness: `page = 0` is rejected by both calls with no repository
read. -/
theorem garment_pagination_guard_witness :
    GarmentsService.getAllGarments [] 0 10 =
      (ResponseMessage.badRequest "Invalid pagination parameters", []) ∧
    GarmentsService.searchGarmentsByName [] "shirt" 0 10 =
      (ResponseMessage.badRequest "Invalid pagination parameters", []) :=
  garment_pagination_guard [] "shirt" 0 10 (Or.inl (by decide))

/-- C5: merging `{price: -1}` into any stored garment fails the schema's
`price ≥ 0` validator: the call is not a success envelope (the
`ValidationError` propagates) and the store — in particular the stored
garment — is unchanged. -/
theorem updateGarment_negative_price_rejected (store : GarmentStore)
    (id : String) (g : Garment) (now : Nat)
    (hid : isValidObjectId id = true)
    (hmem : store.find? (fun e => e.fst == id) = some (id, g)) :
    garmentResultSuccess
      (GarmentsService.updateGarment store id { price := some (-1) } now).fst
        = false ∧
    (GarmentsService.updateGarment store id { price := some (-1) } now).snd
        = store ∧
    ((GarmentsService.updateGarment store id { price := some (-1) } now).snd).find?
        (fun e => e.fst == id) = some (id, g) := by
  have hval : validateGarmentUpdate { price := some (-1) } = false := by
    decide
  refine ⟨?_, ?_, ?_⟩ <;>
    simp [GarmentsService.updateGarment, CrudRepository.updateById, hid, hval,
      garmentResultSuccess, hmem]

/-- C5 witness: a concrete one-garment store rejects the `price = -1`
update and keeps the document intact. -/
theorem updateGarment_negative_price_rejected_witness :
    garmentResultSuccess
      (GarmentsService.updateGarment [(idExample, gExample)] idExample
        { price := some (-1) } 7).fst = false ∧
    (GarmentsService.updateGarment [(idExample, gExample)] idExample
        { price := some (-1) } 7).snd = [(idExample, gExample)] ∧
    ((GarmentsService.updateGarment [(idExample, gExample)] idExample
        { price := some (-1) } 7).snd).find? (fun e => e.fst == idExample)
        = some (idExample, gExample) :=
  updateGarment_negative_price_rejected [(idExample, gExample)] idExample
    gExample 7 (by decide) (by decide)

/-- C10: for `page ≥ 1`, `limit ≥ 1` with `page` strictly past the last page,
`getAllGarments` still succeeds (200) with an empty `docs` sequence,
`hasNextPage = false` and `nextPage = null`. -/
theorem getAllGarments_past_end (store : GarmentStore) (page limit : Int)
    (hp : 1 ≤ page) (hl : 1 ≤ limit)
    (hpast : (CrudRepository.findWithPagination (store.map Prod.snd)
        (fun _ => true) page.toNat limit.toNat).totalPages < page.toNat) :
    ((GarmentsService.getAllGarments store page limit).fst).success = true ∧
    ((GarmentsService.getAllGarments store page limit).fst).statusCode
        = 200 ∧
    ∃ d, ((GarmentsService.getAllGarments store page limit).fst).data
          = some d ∧
      d.garments = [] ∧
      d.pagination.hasNextPage = false ∧
      d.pagination.nextPage = none := by
  have hpn : ¬ page < 1 := by omega
  have hln : ¬ limit < 1 := by omega
  have henv : GarmentsService.getAllGarments store page limit =
      (ResponseMessage.ok "Garments fetched successfully"
        (some { garments := (CrudRepository.findWithPagination
                  (store.map Prod.snd) (fun _ => true) page.toNat
                  limit.toNat).docs,
                pagination := PaginationMeta.ofResult
                  (CrudRepository.findWithPagination (store.map Prod.snd)
                    (fun _ => true) page.toNat limit.toNat) }),
       [RepoCall.findWithPagination page.toNat limit.toNat]) := by
    simp [GarmentsService.getAllGarments, hpn, hln]
  have hdocs : (CrudRepository.findWithPagination (store.map Prod.snd)
      (fun _ => true) page.toNat limit.toNat).docs = [] := by
    simp only [CrudRepository.findWithPagination] at hpast ⊢
    have hle : ((store.map Prod.snd).filter (fun _ => true)).length ≤
        (page.toNat - 1) * limit.toNat := by
      have h1 := totalDocs_le_totalPages_mul
        ((store.map Prod.snd).filter (fun _ => true)).length limit.toNat
        (by omega)
      have h2 : (((store.map Prod.snd).filter (fun _ => true)).length
          + limit.toNat - 1) / limit.toNat ≤ page.toNat - 1 := by omega
      calc ((store.map Prod.snd).filter (fun _ => true)).length
          ≤ (((store.map Prod.snd).filter (fun _ => true)).length
              + limit.toNat - 1) / limit.toNat * limit.toNat := h1
        _ ≤ (page.toNat - 1) * limit.toNat :=
            Nat.mul_le_mul_right _ h2
    rw [List.drop_eq_nil_of_le hle, List.take_nil]
  have hpast2 : (List.length store + limit.toNat - 1) / limit.toNat
      < page.toNat := by
    simp only [CrudRepository.findWithPagination] at hpast
    simpa using hpast
  have hnot : ¬ page.toNat
      < (List.length store + limit.toNat - 1) / limit.toNat := by omega
  have hflag : (CrudRepository.findWithPagination (store.map Prod.snd)
      (fun _ => true) page.toNat limit.toNat).hasNextPage = false := by
    simp only [CrudRepository.findWithPagination]
    simp [hnot]
  have hnextp : (CrudRepository.findWithPagination (store.map Prod.snd)
      (fun _ => true) page.toNat limit.toNat).nextPage = none := by
    simp only [CrudRepository.findWithPagination]
    simp [hnot]
  rw [henv]
  exact ⟨rfl, rfl, _, rfl, hdocs,
    by simpa [PaginationMeta.ofResult] using hflag,
    by simpa [PaginationMeta.ofResult] using hnextp⟩

/-- C10 witness: a three-garment store, `page = 3`, `limit = 2` (two total
pages) yields a successful empty page. -/
theorem getAllGarments_past_end_witness :
    ((GarmentsService.getAllGarments [(idExample, gExample)] 3 2).fst).success
        = true ∧
    ((GarmentsService.getAllGarments [(idExample, gExample)] 3 2).fst).statusCode
        = 200 ∧
    ∃ d, ((GarmentsService.getAllGarments [(idExample, gExample)] 3 2).fst).data
          = some d ∧
      d.garments = [] ∧
      d.pagination.hasNextPage = false ∧
      d.pagination.nextPage = none :=
  getAllGarments_past_end [(idExample, gExample)] 3 2 (by decide) (by decide)
    (by decide)

/-- Helper: after `storeRefreshToken`, every user either carries the freshly
stored token or is an untouched user with a different id. -/
theorem mem_storeRefreshToken (db : UserDb) (uid : String) (tok : Token)
    (now : Nat) (v : User)
    (hv : v ∈ AuthRepository.storeRefreshToken db uid tok now) :
    v.refreshToken = some tok ∨ (v ∈ db ∧ v._id ≠ uid) := by
  simp only [AuthRepository.storeRefreshToken, List.mem_map] at hv
  obtain ⟨w, hw, rfl⟩ := hv
  by_cases h : w._id == uid
  · simp [h]
  · right
    rw [if_neg (by simpa using h)]
    exact ⟨hw, by simpa using h⟩

/-- Helper: after `clearRefreshToken`, every user either has no stored token
or is an untouched user with a different id. -/
theorem mem_clearRefreshToken (db : UserDb) (uid : String) (now : Nat)
    (v : User) (hv : v ∈ AuthRepository.clearRefreshToken db uid now) :
    v.refreshToken = none ∨ (v ∈ db ∧ v._id ≠ uid) := by
  simp only [AuthRepository.clearRefreshToken, List.mem_map] at hv
  obtain ⟨w, hw, rfl⟩ := hv
  by_cases h : w._id == uid
  · simp [h]
  · right
    rw [if_neg (by simpa using h)]
    exact ⟨hw, by simpa using h⟩

/-- Helper: a refresh call fails whenever no user in the database both stores
the presented token and has the token's embedded id — in the source, either
`findByRefreshToken` misses or the id cross-check rejects. -/
theorem refresh_fails_of_no_owner (db : UserDb) (t : Nat) (rt : Token)
    (h : ∀ v ∈ db, v.refreshToken = some rt → v._id ≠ rt.id) :
    ((AuthService.refreshAccessToken db t rt).fst).success = false := by
  simp only [AuthService.refreshAccessToken]
  cases hv : verifyRefreshToken rt t with
  | error e => simp [ResponseMessage.unauthorized]
  | ok did =>
    have hdid : did = rt.id := by
      unfold verifyRefreshToken verifyToken at hv
      split at hv
      · cases hv
      · split at hv
        · cases hv
        · injection hv with h1
          exact h1.symm
    dsimp only
    by_cases hd : did = ""
    · simp [hd, ResponseMessage.unauthorized]
    · rw [if_neg hd]
      cases hf : AuthRepository.findByRefreshToken db rt with
      | none => simp [ResponseMessage.unauthorized]
      | some v =>
        dsimp only
        have hvmem : v ∈ db := List.mem_of_find?_eq_some hf
        have hvp := List.find?_some hf
        have hvtok : v.refreshToken = some rt := by simpa using hvp
        rw [if_pos (by rw [hdid]; exact h v hvmem hvtok)]
        simp [ResponseMessage.unauthorized]

/-- Helper: rotating in a token distinct from `rt` leaves no owner of `rt`
behind whose id matches `rt`'s payload. -/
theorem storeRefreshToken_blocks (db : UserDb) (uid : String) (tok : Token)
    (now : Nat) (rt : Token) (hne : tok ≠ rt) (hid : rt.id = uid) :
    ∀ v ∈ AuthRepository.storeRefreshToken db uid tok now,
      v.refreshToken = some rt → v._id ≠ rt.id := by
  intro v hv hvtok
  rcases mem_storeRefreshToken db uid tok now v hv with h | ⟨_, hne2⟩
  · rw [h] at hvtok
    exact absurd (Option.some.inj hvtok) hne
  · rw [hid]
    exact hne2

/-- Helper: clearing the stored token leaves no owner of any token of that
user behind. -/
theorem clearRefreshToken_blocks (db : UserDb) (uid : String) (now : Nat)
    (rt : Token) (hid : rt.id = uid) :
    ∀ v ∈ AuthRepository.clearRefreshToken db uid now,
      v.refreshToken = some rt → v._id ≠ rt.id := by
  intro v hv hvtok
  rcases mem_clearRefreshToken db uid now v hv with h | ⟨_, hne2⟩
  · rw [h] at hvtok
    cases hvtok
  · rw [hid]
    exact hne2

/-- Helper: anatomy of a successful `refreshAccessToken` call — the user was
found by the stored token, the id cross-check passed, the returned pair was
signed now, and the store was rotated. -/
theorem refreshAccessToken_success (db : UserDb) (t : Nat) (rt : Token)
    (env : Envelope RefreshData) (db' : UserDb)
    (h : AuthService.refreshAccessToken db t rt = (env, db'))
    (hs : env.success = true) :
    ∃ u, AuthRepository.findByRefreshToken db rt = some u ∧
      u._id = rt.id ∧
      env.data = some { accessToken := signAccessToken u._id t,
                        refreshToken := signRefreshToken u._id t } ∧
      db' = AuthRepository.storeRefreshToken db u._id
              (signRefreshToken u._id t) t := by
  unfold AuthService.refreshAccessToken at h
  cases hv : verifyRefreshToken rt t with
  | error e =>
    rw [hv] at h
    injection h with h1 h2
    rw [← h1] at hs
    simp [ResponseMessage.unauthorized] at hs
  | ok did =>
    have hdid : did = rt.id := by
      unfold verifyRefreshToken verifyToken at hv
      split at hv
      · cases hv
      · split at hv
        · cases hv
        · injection hv with h1
          exact h1.symm
    rw [hv] at h
    dsimp only at h
    by_cases hd : did = ""
    · rw [if_pos hd] at h
      injection h with h1 h2
      rw [← h1] at hs
      simp [ResponseMessage.unauthorized] at hs
    · rw [if_neg hd] at h
      cases hf : AuthRepository.findByRefreshToken db rt with
      | none =>
        rw [hf] at h
        injection h with h1 h2
        rw [← h1] at hs
        simp [ResponseMessage.unauthorized] at hs
      | some u =>
        rw [hf] at h
        dsimp only at h
        by_cases hmis : u._id ≠ did
        · rw [if_pos hmis] at h
          injection h with h1 h2
          rw [← h1] at hs
          simp [ResponseMessage.unauthorized] at hs
        · rw [if_neg hmis] at h
          injection h with h1 h2
          refine ⟨u, rfl, ?_, ?_, h2.symm⟩
          · rw [← hdid]
            exact not_ne_iff.mp hmis
          · rw [← h1]
            rfl

/-- C2: after a successful `refreshAccessToken(rt1)` that returns a new
refresh token (one different from `rt1`, as rotation produces whenever the
two signing instants differ), presenting `rt1` again fails at every later
instant — including instants at which `rt1` still cryptographically
verifies. -/
theorem refresh_rotation_blocks_reuse (db db1 : UserDb) (t1 t2 : Nat)
    (rt1 : Token) (env1 : Envelope RefreshData) (d : RefreshData)
    (h1 : AuthService.refreshAccessToken db t1 rt1 = (env1, db1))
    (hs : env1.success = true) (hd : env1.data = some d)
    (hnew : d.refreshToken ≠ rt1) :
    ((AuthService.refreshAccessToken db1 t2 rt1).fst).success = false := by
  obtain ⟨u, hf, hid, hdata, hdb⟩ :=
    refreshAccessToken_success db t1 rt1 env1 db1 h1 hs
  rw [hd] at hdata
  have hrt2 : d.refreshToken = signRefreshToken u._id t1 := by
    have := Option.some.inj hdata
    rw [this]
  apply refresh_fails_of_no_owner
  rw [hdb]
  exact storeRefreshToken_blocks db u._id (signRefreshToken u._id t1) t1 rt1
    (by rw [← hrt2]; exact hnew) hid.symm

/-- A concrete active stored account holding a refresh token signed at
instant 0, for witness instantiations. -/
def uTok : User :=
  { _id := "u1", username := "ana", email := "ana@x.com",
    password := hashPassword "secret1", role := "user",
    refreshToken := some (signRefreshToken "u1" 0), isActive := true,
    lastLogin := none, createdAt := 0, updatedAt := 0 }

/-- C2 witness: a successful rotation at instant 5, then reuse of the old
token at instant 6 fails. -/
theorem refresh_rotation_blocks_reuse_witness :
    ((AuthService.refreshAccessToken
        ((AuthService.refreshAccessToken [uTok] 5 (signRefreshToken "u1" 0)).snd)
        6 (signRefreshToken "u1" 0)).fst).success = false :=
  refresh_rotation_blocks_reuse [uTok]
    ((AuthService.refreshAccessToken [uTok] 5 (signRefreshToken "u1" 0)).snd)
    5 6 (signRefreshToken "u1" 0)
    ((AuthService.refreshAccessToken [uTok] 5 (signRefreshToken "u1" 0)).fst)
    { accessToken := signAccessToken "u1" 5,
      refreshToken := signRefreshToken "u1" 5 }
    rfl (by decide) (by decide) (by decide)

/-- C7: `logout(userId)` always answers `ok` with status 200 (idempotent:
also when nothing was stored), clears the stored refresh token of that user,
and any refresh token issued to that user beforehand is rejected by every
subsequent `refreshAccessToken`. -/
theorem logout_clears_and_blocks_refresh (db : UserDb) (uid : String)
    (now t : Nat) (rt : Token) (hid : rt.id = uid) :
    ((AuthService.userLogout db uid now).fst).success = true ∧
    ((AuthService.userLogout db uid now).fst).statusCode = 200 ∧
    (∀ v ∈ (AuthService.userLogout db uid now).snd, v._id = uid →
      v.refreshToken = none) ∧
    ((AuthService.refreshAccessToken ((AuthService.userLogout db uid now).snd)
        t rt).fst).success = false := by
  refine ⟨rfl, rfl, ?_, ?_⟩
  · intro v hv hvid
    rcases mem_clearRefreshToken db uid now v hv with h | ⟨_, hne⟩
    · exact h
    · exact absurd hvid hne
  · exact refresh_fails_of_no_owner _ t rt
      (clearRefreshToken_blocks db uid now rt hid)

/-- C7 witness: logging out the token's owner and then presenting the
pre-logout token fails; the envelope is a 200 success even though the second
run clears nothing. -/
theorem logout_clears_and_blocks_refresh_witness :
    ((AuthService.userLogout [uTok] "u1" 3).fst).success = true ∧
    ((AuthService.refreshAccessToken
        ((AuthService.userLogout [uTok] "u1" 3).snd) 4
        (signRefreshToken "u1" 0)).fst).success = false :=
  ⟨(logout_clears_and_blocks_refresh [uTok] "u1" 3 4 (signRefreshToken "u1" 0)
      rfl).1,
   (logout_clears_and_blocks_refresh [uTok] "u1" 3 4 (signRefreshToken "u1" 0)
      rfl).2.2.2⟩

/-- Helper: anatomy of a successful `userLogin` call — a user was found by
the normalised email, is active, the password matched, the returned pair was
signed now and the refresh token was stored. -/
theorem userLogin_success (db : UserDb) (t : Nat) (email password : String)
    (env : Envelope LoginData) (db' : UserDb)
    (h : AuthService.userLogin db t email password = (env, db'))
    (hs : env.success = true) :
    ∃ u, AuthRepository.findByEmailWithPassword db (normEmail email)
          = some u ∧
      u.isActive = true ∧
      env.data = some { accessToken := signAccessToken u._id t,
                        refreshToken := signRefreshToken u._id t,
                        user := { id := u._id, username := u.username,
                                  email := u.email, role := u.role } } ∧
      db' = AuthRepository.storeRefreshToken db u._id
              (signRefreshToken u._id t) t := by
  unfold AuthService.userLogin at h
  by_cases hreq : email = "" || password = ""
  · rw [if_pos (by simpa using hreq)] at h
    injection h with h1 h2
    rw [← h1] at hs
    simp [ResponseMessage.badRequest] at hs
  · rw [if_neg (by simpa using hreq)] at h
    cases hf : AuthRepository.findByEmailWithPassword db (normEmail email) with
    | none =>
      rw [hf] at h
      injection h with h1 h2
      rw [← h1] at hs
      simp [ResponseMessage.unauthorized] at hs
    | some u =>
      rw [hf] at h
      dsimp only at h
      by_cases hact : u.isActive
      · rw [if_neg (by simpa using hact)] at h
        by_cases hpw : comparePassword password u.password
        · rw [if_neg (by simpa using hpw)] at h
          injection h with h1 h2
          exact ⟨u, rfl, by simpa using hact, by rw [← h1]; rfl, h2.symm⟩
        · rw [if_pos (by simpa using hpw)] at h
          injection h with h1 h2
          rw [← h1] at hs
          simp [ResponseMessage.unauthorized] at hs
      · rw [if_pos (by simpa using hact)] at h
        injection h with h1 h2
        rw [← h1] at hs
        simp [ResponseMessage.forbidden] at hs

/-- Helper: `find?` only depends on the pointwise behaviour of its
predicate. -/
theorem find?_pred_ext {α : Type} (l : List α) (p q : α → Bool)
    (h : ∀ a, p a = q a) : l.find? p = l.find? q := by
  induction l with
  | nil => rfl
  | cons a l ih =>
    rw [List.find?_cons, List.find?_cons, h a, ih]

/-- Helper: `storeRefreshToken` commutes with email lookup — it changes no
user's email and no ordering, so the same (first) user is found, with its
session fields possibly updated. -/
theorem findByEmail_storeRefreshToken (db : UserDb) (uid : String)
    (tok : Token) (now : Nat) (e : String) :
    AuthRepository.findByEmailWithPassword
        (AuthRepository.storeRefreshToken db uid tok now) e
      = (AuthRepository.findByEmailWithPassword db e).map
          (fun u => if u._id == uid then
            { u with refreshToken := some tok, lastLogin := some now,
                     updatedAt := now } else u) := by
  simp only [AuthRepository.findByEmailWithPassword,
    AuthRepository.storeRefreshToken]
  rw [List.find?_map]
  congr 1
  apply find?_pred_ext
  intro u
  by_cases h : u._id == uid <;> simp [h, Function.comp]

/-- C6: when a user logs in twice (the second login at a different signing
instant, as any later login is), the refresh token issued by the first login
is rejected by every `refreshAccessToken` call made after the second
login — the second session replaces the first. -/
theorem second_login_invalidates_first (db db1 db2 : UserDb) (t1 t2 t3 : Nat)
    (e1 p1 e2 p2 : String) (env1 env2 : Envelope LoginData) (d1 : LoginData)
    (h1 : AuthService.userLogin db t1 e1 p1 = (env1, db1))
    (hs1 : env1.success = true) (hd1 : env1.data = some d1)
    (hsame : normEmail e2 = normEmail e1)
    (h2 : AuthService.userLogin db1 t2 e2 p2 = (env2, db2))
    (hs2 : env2.success = true)
    (ht : t1 ≠ t2) :
    ((AuthService.refreshAccessToken db2 t3 d1.refreshToken).fst).success
      = false := by
  obtain ⟨u, hf1, hact1, hdata1, hdb1⟩ :=
    userLogin_success db t1 e1 p1 env1 db1 h1 hs1
  obtain ⟨u', hf2, hact2, hdata2, hdb2⟩ :=
    userLogin_success db1 t2 e2 p2 env2 db2 h2 hs2
  have hrt1 : d1.refreshToken = signRefreshToken u._id t1 := by
    rw [hd1] at hdata1
    rw [Option.some.inj hdata1]
  have huid : u'._id = u._id := by
    rw [hsame, hdb1, findByEmail_storeRefreshToken, hf1] at hf2
    have := Option.some.inj hf2
    rw [← this]
    by_cases h : u._id == u._id <;> simp [h]
  apply refresh_fails_of_no_owner
  rw [hdb2]
  have hneq : signRefreshToken u'._id t2 ≠ d1.refreshToken := by
    rw [hrt1, huid]
    intro hcontra
    exact ht (congrArg Token.iat hcontra).symm
  have hid : (d1.refreshToken).id = u'._id := by
    rw [hrt1, huid]
    rfl
  exact storeRefreshToken_blocks db1 u'._id (signRefreshToken u'._id t2) t2
    d1.refreshToken hneq hid

/-- A concrete active stored account with no session, for witness
instantiations. -/
def anaActive : User :=
  { _id := "u1", username := "ana", email := "ana@x.com",
    password := hashPassword "secret1", role := "user", refreshToken := none,
    isActive := true, lastLogin := none, createdAt := 0, updatedAt := 0 }

/-- C6 witness: two concrete logins at instants 0 and 1; the first login's
refresh token is then rejected at instant 2. -/
theorem second_login_invalidates_first_witness :
    ((AuthService.refreshAccessToken
        ((AuthService.userLogin
            ((AuthService.userLogin [anaActive] 0 "ana@x.com" "secret1").snd)
            1 "ana@x.com" "secret1").snd)
        2 (signRefreshToken "u1" 0)).fst).success = false :=
  second_login_invalidates_first [anaActive]
    ((AuthService.userLogin [anaActive] 0 "ana@x.com" "secret1").snd)
    ((AuthService.userLogin
        ((AuthService.userLogin [anaActive] 0 "ana@x.com" "secret1").snd)
        1 "ana@x.com" "secret1").snd)
    0 1 2 "ana@x.com" "secret1" "ana@x.com" "secret1"
    ((AuthService.userLogin [anaActive] 0 "ana@x.com" "secret1").fst)
    ((AuthService.userLogin
        ((AuthService.userLogin [anaActive] 0 "ana@x.com" "secret1").snd)
        1 "ana@x.com" "secret1").fst)
    { accessToken := signAccessToken "u1" 0,
      refreshToken := signRefreshToken "u1" 0,
      user := { id := "u1", username := "ana", email := "ana@x.com",
                role := "user" } }
    rfl (by decide) (by decide) rfl rfl (by decide) (by decide)

/-- The user fields untouched by the session-state operations: everything
except `refreshToken`, `lastLogin` and the server-managed `updatedAt`. -/
def userCore (u : User) :
    String × String × String × String × String × Bool × Nat :=
  (u._id, u.username, u.email, u.password, u.role, u.isActive, u.createdAt)

/-- C9: the session-touching auth operations — the repository's
`storeRefreshToken` and `clearRefreshToken`, and through them login's token
store, refresh's rotation and logout's clear — change only `refreshToken`,
`lastLogin` and `updatedAt`: id, username, email, password hash, role,
`isActive` and `createdAt` are preserved pointwise. -/
theorem auth_session_ops_frame (db : UserDb) (uid : String) (tok old : Token)
    (now t : Nat) (e p : String) :
    (AuthRepository.storeRefreshToken db uid tok now).map userCore
        = db.map userCore ∧
    (AuthRepository.clearRefreshToken db uid now).map userCore
        = db.map userCore ∧
    ((AuthService.userLogin db t e p).snd).map userCore = db.map userCore ∧
    ((AuthService.refreshAccessToken db t old).snd).map userCore
        = db.map userCore ∧
    ((AuthService.userLogout db uid now).snd).map userCore
        = db.map userCore := by
  have hstore : ∀ (db0 : UserDb) (uid' : String) (tok' : Token) (now' : Nat),
      (AuthRepository.storeRefreshToken db0 uid' tok' now').map userCore
        = db0.map userCore := by
    intro db0 uid' tok' now'
    simp only [AuthRepository.storeRefreshToken, List.map_map]
    apply List.map_congr_left
    intro u _
    by_cases h : u._id == uid' <;> simp [h, Function.comp, userCore]
  have hclear : ∀ (db0 : UserDb) (uid' : String) (now' : Nat),
      (AuthRepository.clearRefreshToken db0 uid' now').map userCore
        = db0.map userCore := by
    intro db0 uid' now'
    simp only [AuthRepository.clearRefreshToken, List.map_map]
    apply List.map_congr_left
    intro u _
    by_cases h : u._id == uid' <;> simp [h, Function.comp, userCore]
  refine ⟨hstore db uid tok now, hclear db uid now, ?_, ?_, hclear db uid now⟩
  · unfold AuthService.userLogin
    split
    · rfl
    · cases AuthRepository.findByEmailWithPassword db (normEmail e) with
      | none => rfl
      | some u =>
        dsimp only
        split
        · rfl
        · split
          · rfl
          · exact hstore db u._id (signRefreshToken u._id t) t
  · unfold AuthService.refreshAccessToken
    cases verifyRefreshToken old t with
    | error _ => rfl
    | ok did =>
      dsimp only
      split
      · rfl
      · cases AuthRepository.findByRefreshToken db old with
        | none => rfl
        | some u =>
          dsimp only
          split
          · rfl
          · exact hstore db u._id (signRefreshToken u._id t) t

/-- A deactivated stored account, used in the C3 counterexample. -/
def anaInactive : User :=
  { _id := "u1", username := "ana", email := "ana@x.com",
    password := hashPassword "secret1", role := "user", refreshToken := none,
    isActive := false, lastLogin := none, createdAt := 0, updatedAt := 0 }

/-- C3 counterexample: for the stored but deactivated user `ana` and a
non-matching password, the wrong-password login answers
`403 "Account is deactivated"` while the unknown-email login answers
`401 "Invalid email or password"` — message and status code both differ, so
the claim is false as stated for deactivated stored users. -/
theorem login_enumeration_counterexample :
    hashPassword "wrong" ≠ anaInactive.password ∧
    (AuthService.userLogin [anaInactive] 0 "ana@x.com" "wrong").fst.message
        = "Account is deactivated" ∧
    (AuthService.userLogin [anaInactive] 0 "nouser@x.com" "whatever").fst.message
        = "Invalid email or password" ∧
    (AuthService.userLogin [anaInactive] 0 "ana@x.com" "wrong").fst.message
        ≠ (AuthService.userLogin [anaInactive] 0 "nouser@x.com"
            "whatever").fst.message ∧
    (AuthService.userLogin [anaInactive] 0 "ana@x.com" "wrong").fst.statusCode
        ≠ (AuthService.userLogin [anaInactive] 0 "nouser@x.com"
            "whatever").fst.statusCode := by
  decide

/-- C3 (amended): for an ACTIVE stored user and non-empty submitted
credentials, a wrong-password login and an unknown-email login return the
identical message and the identical status code — both are the generic
`401 "Invalid email or password"` failure. -/
theorem login_enumeration_resistant (db : UserDb) (t1 t2 : Nat)
    (e1 p1 e2 p2 : String) (u : User)
    (hf1 : AuthRepository.findByEmailWithPassword db (normEmail e1) = some u)
    (hact : u.isActive = true)
    (hwrong : comparePassword p1 u.password = false)
    (hf2 : AuthRepository.findByEmailWithPassword db (normEmail e2) = none)
    (he1 : e1 ≠ "") (hp1 : p1 ≠ "") (he2 : e2 ≠ "") (hp2 : p2 ≠ "") :
    (AuthService.userLogin db t1 e1 p1).fst.message
        = (AuthService.userLogin db t2 e2 p2).fst.message ∧
    (AuthService.userLogin db t1 e1 p1).fst.statusCode
        = (AuthService.userLogin db t2 e2 p2).fst.statusCode ∧
    (AuthService.userLogin db t1 e1 p1).fst.success = false ∧
    (AuthService.userLogin db t2 e2 p2).fst.success = false := by
  have h1 : (AuthService.userLogin db t1 e1 p1).fst
      = ResponseMessage.unauthorized "Invalid email or password" := by
    unfold AuthService.userLogin
    rw [if_neg (by simp [he1, hp1]), hf1]
    dsimp only
    rw [if_neg (by simp [hact]), if_pos (by simp [hwrong])]
  have h2 : (AuthService.userLogin db t2 e2 p2).fst
      = ResponseMessage.unauthorized "Invalid email or password" := by
    unfold AuthService.userLogin
    rw [if_neg (by simp [he2, hp2]), hf2]
  rw [h1, h2]
  exact ⟨rfl, rfl, rfl, rfl⟩

/-- C3 (amended) witness: the active stored `ana` with a wrong password and
an unknown email produce the identical 401 envelope. -/
theorem login_enumeration_resistant_witness :
    (AuthService.userLogin [anaActive] 0 "ana@x.com" "wrong").fst.message
        = (AuthService.userLogin [anaActive] 0 "nouser@x.com"
            "whatever").fst.message ∧
    (AuthService.userLogin [anaActive] 0 "ana@x.com" "wrong").fst.statusCode
        = (AuthService.userLogin [anaActive] 0 "nouser@x.com"
            "whatever").fst.statusCode ∧
    (AuthService.userLogin [anaActive] 0 "ana@x.com" "wrong").fst.success
        = false ∧
    (AuthService.userLogin [anaActive] 0 "nouser@x.com"
        "whatever").fst.success = false :=
  login_enumeration_resistant [anaActive] 0 0 "ana@x.com" "wrong"
    "nouser@x.com" "whatever" anaActive (by decide) (by decide) (by decide)
    (by decide) (by decide) (by decide) (by decide) (by decide)

/-- Helper: the duplicate-email pre-check holds exactly when some stored
account carries that exact email string. -/
theorem existsByEmail_iff (db : UserDb) (e : String) :
    AuthRepository.existsByEmail db e = true ↔ ∃ u ∈ db, u.email = e := by
  simp [AuthRepository.existsByEmail, List.any_eq_true]

/-- Helper: a bcrypt hash is never the plaintext it hashes. -/
theorem hashPassword_ne (p : String) : hashPassword p ≠ p := by
  intro h
  have hlen := congrArg String.length h
  rw [hashPassword, String.length_append] at hlen
  have h7 : ("$2b$12$" : String).length = 7 := rfl
  omega

/-- Helper: anatomy of a successful `create` — the returned user is the
validated, trimmed, hashed document, appended to the collection. -/
theorem create_ok (db : UserDb) (now : Nat) (fid : String) (d : NewUser)
    (u : User) (db' : UserDb)
    (h : AuthRepository.create db now fid d = (.ok u, db')) :
    u = { _id := fid, username := trimStr d.username,
          email := trimStr (toLowerStr d.email),
          password := hashPassword d.password, role := d.role,
          refreshToken := none, isActive := d.isActive, lastLogin := none,
          createdAt := now, updatedAt := now } ∧
    db' = db ++ [u] := by
  unfold AuthRepository.create at h
  dsimp only at h
  repeat' split at h
  all_goals
    first
      | (injection h with h1 h2
         exact Except.noConfusion h1)
      | (injection h with h1 h2
         injection h1 with h3
         exact ⟨h3.symm, by rw [← h2, h3]⟩)

/-- C8 (amended): `register` answers `conflict` when a stored account carries
the submitted email string; `badRequest` — creating no user — when the email
fails the format check or when the (non-duplicate) password is shorter than 6
characters; and every success appends exactly one user whose role is the
requested role (defaulting to `user` when absent or empty), `isActive = true`
and whose stored password is the bcrypt hash, never the plaintext, with
status 201. -/
theorem register_spec (db : UserDb) (now : Nat) (fid : String)
    (p : RegisterInfo) :
    (emailFormatOk p.email = false →
      (AuthService.userRegister db now fid p).fst
          = ResponseMessage.badRequest "Invalid email format" ∧
      (AuthService.userRegister db now fid p).snd = db) ∧
    (emailFormatOk p.email = true → (∃ u ∈ db, u.email = p.email) →
      (AuthService.userRegister db now fid p).fst
          = ResponseMessage.conflict "User already exists with this email" ∧
      (AuthService.userRegister db now fid p).snd = db) ∧
    (emailFormatOk p.email = true → (∀ u ∈ db, u.email ≠ p.email) →
      p.password.length < 6 →
      (AuthService.userRegister db now fid p).fst
          = ResponseMessage.badRequest
              "Password must be at least 6 characters" ∧
      (AuthService.userRegister db now fid p).snd = db) ∧
    (((AuthService.userRegister db now fid p).fst).success = true →
      ((AuthService.userRegister db now fid p).fst).statusCode = 201 ∧
      ∃ u, (AuthService.userRegister db now fid p).snd = db ++ [u] ∧
        u.role = roleOf p.role ∧ u.isActive = true ∧
        u.password = hashPassword p.password ∧
        u.password ≠ p.password) := by
  by_cases hfmt : emailFormatOk p.email
  · by_cases hex : AuthRepository.existsByEmail db p.email
    · have henv : AuthService.userRegister db now fid p =
          (ResponseMessage.conflict "User already exists with this email",
           db) := by
        unfold AuthService.userRegister
        rw [if_neg (by simp [hfmt]), if_pos hex]
      refine ⟨?_, ?_, ?_, ?_⟩
      · intro hcontra
        simp [hfmt] at hcontra
      · intro _ _
        rw [henv]
        exact ⟨rfl, rfl⟩
      · intro _ hnone _
        obtain ⟨u, hu, hue⟩ := (existsByEmail_iff db p.email).mp hex
        exact absurd hue (hnone u hu)
      · intro hsucc
        rw [henv] at hsucc
        simp [ResponseMessage.conflict] at hsucc
    · by_cases hlen : p.password.length < 6
      · have henv : AuthService.userRegister db now fid p =
            (ResponseMessage.badRequest
              "Password must be at least 6 characters", db) := by
          unfold AuthService.userRegister
          rw [if_neg (by simp [hfmt]), if_neg hex, if_pos hlen]
        refine ⟨?_, ?_, ?_, ?_⟩
        · intro hcontra
          simp [hfmt] at hcontra
        · intro _ hexists
          exact absurd ((existsByEmail_iff db p.email).mpr hexists) hex
        · intro _ _ _
          rw [henv]
          exact ⟨rfl, rfl⟩
        · intro hsucc
          rw [henv] at hsucc
          simp [ResponseMessage.badRequest] at hsucc
      · have hstep : AuthService.userRegister db now fid p =
            (match AuthRepository.create db now fid
                { username := trimStr p.username,
                  email := trimStr (toLowerStr p.email),
                  password := p.password, role := roleOf p.role,
                  isActive := true } with
             | (.error _, db') =>
               (ResponseMessage.internalServerError "Registration failed",
                db')
             | (.ok _, db') =>
               (ResponseMessage.created "User registered successfully"
                 (some { message := "Please login with your credentials" }),
                db')) := by
          unfold AuthService.userRegister
          rw [if_neg (by simp [hfmt]), if_neg hex, if_neg hlen]
        rcases hcr : AuthRepository.create db now fid
            { username := trimStr p.username,
              email := trimStr (toLowerStr p.email),
              password := p.password, role := roleOf p.role,
              isActive := true } with ⟨res, db2⟩
        rw [hcr] at hstep
        refine ⟨?_, ?_, ?_, ?_⟩
        · intro hcontra
          simp [hfmt] at hcontra
        · intro _ hexists
          exact absurd ((existsByEmail_iff db p.email).mpr hexists) hex
        · intro _ _ hlen2
          exact absurd hlen2 hlen
        · intro hsucc
          cases res with
          | error e =>
            dsimp only at hstep
            rw [hstep] at hsucc
            simp [ResponseMessage.internalServerError] at hsucc
          | ok u0 =>
            dsimp only at hstep
            obtain ⟨hu0, hdb2⟩ := create_ok db now fid _ u0 db2 hcr
            rw [hstep]
            refine ⟨rfl, u0, hdb2, ?_, ?_, ?_, ?_⟩
            · rw [hu0]
            · rw [hu0]
            · rw [hu0]
            · rw [hu0]
              exact hashPassword_ne p.password
  · have henv : AuthService.userRegister db now fid p =
        (ResponseMessage.badRequest "Invalid email format", db) := by
      unfold AuthService.userRegister
      rw [if_pos (by simpa using hfmt)]
    refine ⟨?_, ?_, ?_, ?_⟩
    · intro _
      rw [henv]
      exact ⟨rfl, rfl⟩
    · intro hcontra _
      exact absurd hcontra hfmt
    · intro hcontra _ _
      exact absurd hcontra hfmt
    · intro hsucc
      rw [henv] at hsucc
      simp [ResponseMessage.badRequest] at hsucc

/-- C8 counterexample: a registration that supplies `role = "admin"` succeeds
(201) and persists role `"admin"`, not `"user"`, refuting the claim's "on
success persists a user with role=user". -/
theorem register_role_counterexample :
    ((AuthService.userRegister [] 0 "u1"
        { username := "ana", email := "ana@x.com", password := "secret1",
          role := some "admin" }).fst).statusCode = 201 ∧
    ((AuthService.userRegister [] 0 "u1"
        { username := "ana", email := "ana@x.com", password := "secret1",
          role := some "admin" }).snd).map User.role = ["admin"] ∧
    "admin" ≠ "user" := by
  decide

/-- C8 (amended) witness: a too-short password is rejected with 400 and no
user is created. -/
theorem register_spec_witness :
    (AuthService.userRegister [] 0 "u1"
        { username := "ana", email := "ana@x.com", password := "abc",
          role := none }).fst
      = ResponseMessage.badRequest "Password must be at least 6 characters" ∧
    (AuthService.userRegister [] 0 "u1"
        { username := "ana", email := "ana@x.com", password := "abc",
          role := none }).snd = [] :=
  (register_spec [] 0 "u1"
    { username := "ana", email := "ana@x.com", password := "abc",
      role := none }).2.2.1 (by decide) (by decide) (by decide)

end TestBackend
